import Mathlib

/-!
Verification of the ticket-enhancer repository: a shallow embedding of
`jira_issue_enhancer.py` (prompt construction, model call, response
extraction, preview/apply operations) and `jira_connect_app.py`
(tenant registry install/uninstall handlers and the JWT gate),
together with theorems settling the specification's claims.

Python strings are modelled as lists of characters (`Str`), with the
Python string operations used by the source (`split`, `strip`, `upper`,
`isupper`, substring membership, `split(sep, 1)`, `join`) reproduced
over ASCII text.
-/

/-- Python `str` modelled as a list of characters. -/
abbrev Str := List Char

/-- The characters treated as whitespace by Python's `str.strip()`
(ASCII range). -/
def isPySpace (c : Char) : Bool :=
  c = ' ' || c = '\t' || c = '\n' || c = '\r' || c = '\x0b' || c = '\x0c'

/-- Python `s.strip()`: remove leading and trailing whitespace. -/
def pyStrip (s : Str) : Str :=
  ((s.dropWhile isPySpace).reverse.dropWhile isPySpace).reverse

/-- Python `s.upper()` over ASCII text: uppercase each character. -/
def pyUpper (s : Str) : Str :=
  s.map Char.toUpper

/-- Python `s.isupper()` (ASCII range): there is at least one cased
character and no cased character is lowercase. -/
def pyIsUpper (s : Str) : Bool :=
  s.any (fun c => c.isUpper || c.isLower) && s.all (fun c => !c.isLower)

/-- Python `s.split(sep)` for a single-character separator: splitting
never yields the empty list (`"".split(c) == [""]`). -/
def pySplit (sep : Char) : Str → List Str
  | [] => [[]]
  | c :: cs =>
    if c = sep then [] :: pySplit sep cs
    else
      match pySplit sep cs with
      | [] => [[c]]
      | h :: t => (c :: h) :: t

/-- Python `s.split(sep, 1)` for a single-character separator: at most
one split, so the result has one or two parts. -/
def pySplitOnce (sep : Char) : Str → List Str
  | [] => [[]]
  | c :: cs =>
    if c = sep then [[], cs]
    else
      match pySplitOnce sep cs with
      | [] => [[c]]
      | h :: t => (c :: h) :: t

/-- Python substring membership `pat in hay`. -/
def strContains (hay pat : Str) : Bool :=
  match hay with
  | [] => decide (pat = [])
  | _ :: t => pat.isPrefixOf hay || strContains t pat

/-- Number of positions of `hay` at which `pat` occurs (used to state
the "appears exactly once" claim about the rendered prompt). -/
def countOcc (pat : Str) : Str → Nat
  | [] => if pat = [] then 1 else 0
  | c :: t => (if pat.isPrefixOf (c :: t) then 1 else 0) + countOcc pat t

/-- `Occurs pat hay`: `pat` occurs somewhere in `hay` as a contiguous
substring. -/
def Occurs (pat hay : Str) : Prop :=
  ∃ u v, hay = u ++ pat ++ v

/-! ### Response extraction (`LlamaJiraEnhancer._extract_description_from_output`) -/

/-- The literal section marker searched for in the model output. -/
def MARKER : Str := "ENHANCED DESCRIPTION:".data

/-- The section-header test of the extraction loop:
`line.strip().isupper() and ':' in line and len(line.strip()) < 50`. -/
def isStopHeader (line : Str) : Bool :=
  pyIsUpper (pyStrip line) && line.contains ':' && decide ((pyStrip line).length < 50)

/-- The `for line in lines` loop of
`_extract_description_from_output`, with the loop state
(`in_description`, `description_lines`) made explicit.  The first
branch fires when the upper-cased line contains the marker; otherwise,
while `in_description` holds, a stop header ends the scan (`break`)
and any other line is appended verbatim. -/
def extractLoop : List Str → Bool → List Str → List Str
  | [], _, acc => acc
  | line :: rest, in_description, acc =>
    if strContains (pyUpper line) MARKER then
      match pySplitOnce ':' line with
      | _ :: after :: _ =>
        if pyStrip after = [] then extractLoop rest true acc
        else extractLoop rest true (acc ++ [pyStrip after])
      | _ => extractLoop rest true acc
    else if in_description then
      if isStopHeader line then acc
      else extractLoop rest in_description (acc ++ [line])
    else extractLoop rest in_description acc

/-- `LlamaJiraEnhancer._extract_description_from_output`: split the raw
output on newlines, run the scanning loop, join the accumulated lines
with newlines and strip the result. -/
def extract_description_from_output (llama_output : Str) : Str :=
  pyStrip (List.intercalate "\n".data (extractLoop (pySplit '\n' llama_output) false []))

example : extract_description_from_output "ENHANCED DESCRIPTION:\nFoo\nNEXT SECTION:\nBar".data = "Foo".data := by decide

example : extract_description_from_output "ENHANCED DESCRIPTION:\nFoo\nBar".data = "Foo\nBar".data := by decide

example : extract_description_from_output "ENHANCED DESCRIPTION:\nENHANCED DESCRIPTION: X\nY".data = "X\nY".data := by decide

example : extract_description_from_output "hello\nworld".data = [] := by decide

/-! ### Ticket data model and prompt construction (`LlamaJiraEnhancer._build_prompt`)

A ticket is modelled by the fields the source reads from
`issue['fields']` (and `issue['key']`).  An absent or `None`/falsy
field is `none` (respectively `[]` for the label and component lists,
which the source defaults to `[]` and tests for truthiness); for the
`priority`/`issuetype`/`assignee`/`status` objects only the name
string the source renders is kept. -/

structure TicketSnapshot where
  key : Str
  summary : Option Str
  description : Option Str
  priority : Option Str
  issuetype : Option Str
  assignee : Option Str
  status : Option Str
  labels : List Str
  components : List Str

/-- The configuration state of `LlamaJiraEnhancer.__init__`. -/
structure LlamaJiraEnhancer where
  base_url : Str
  model_name : Str
  policy_rules : Str

/-- The literal returned by `LlamaJiraEnhancer._load_default_policy`. -/
def load_default_policy : Str :=
  "\nJIRA TICKET ENHANCEMENT POLICY:\n\n1. MANDATORY FIELDS:\n   - All tickets must have clear, descriptive titles\n   - Descriptions must include specific details, not vague statements\n   - Priority must be set (Critical, High, Medium, Low)\n   - Issue type must be specified (Bug, Story, Task, Epic)\n\n2. BUG TICKETS:\n   - Must include reproduction steps\n   - Must specify expected vs actual behavior\n   - Should include environment details (browser, OS, version)\n   - Must have severity assessment\n\n3. STORY/FEATURE TICKETS:\n   - Must include acceptance criteria\n   - Should have user story format: \"As a [user], I want [goal] so that [benefit]\"\n   - Must include definition of done\n\n4. TASK TICKETS:\n   - Must have clear action items\n   - Should include estimated effort\n   - Must specify deliverables\n\n5. GENERAL RULES:\n   - Use professional, clear language\n   - Remove duplicate information\n   - Add relevant labels and components\n   - Suggest appropriate assignee if obvious\n   - Flag missing critical information\n".data

/-- `LlamaJiraEnhancer()` with the default constructor arguments
(`ollama_host="localhost"`, `ollama_port=11434`,
`model_name="llama3:8b"`). -/
def defaultLlama : LlamaJiraEnhancer :=
  ⟨"http://localhost:11434".data, "llama3:8b".data, load_default_policy⟩

/-- One `Label: value\n` line of the rendered ticket block. -/
def kv_line (label : String) (v : Str) : Str :=
  label.data ++ v ++ "\n".data

/-- Python `', '.join(xs)`. -/
def joinCommaSep (xs : List Str) : Str :=
  List.intercalate ", ".data xs

/-- The `issue_info` f-string of `_build_prompt`, line by line; each
missing field renders its literal placeholder, and the label and
component lists render `None` when empty (Python falsiness of `[]`). -/
def issue_info (s : TicketSnapshot) : Str :=
  "\nCURRENT TICKET:\n".data ++
  (kv_line "Key: " s.key ++
  (kv_line "Title: " (s.summary.getD "No title".data) ++
  (kv_line "Description: " (s.description.getD "No description".data) ++
  (kv_line "Priority: " (s.priority.getD "Not set".data) ++
  (kv_line "Issue Type: " (s.issuetype.getD "Not set".data) ++
  (kv_line "Assignee: " (s.assignee.getD "Unassigned".data) ++
  (kv_line "Status: " (s.status.getD "Unknown".data) ++
  (kv_line "Labels: " (if s.labels = [] then "None".data else joinCommaSep s.labels) ++
  kv_line "Components: " (if s.components = [] then "None".data else joinCommaSep s.components)))))))))

/-- The fixed task instruction appended at the end of the prompt
(including the trailing space after "above." present in the source). -/
def task_instruction : Str :=
  "TASK: Analyze the current ticket and provide an enhanced description that follows the policy rules above. \nFocus ONLY on improving the description field while maintaining all the important information.\n\nProvide your response in the following format:\n\nENHANCED DESCRIPTION:\n[Your enhanced description here - be detailed, structured, and professional]\n\nPlease enhance this ticket description now:".data

/-- `LlamaJiraEnhancer._build_prompt`: policy rules, blank line, the
rendered ticket block, blank line, the custom instructions verbatim,
blank line, the fixed task instruction. -/
def build_prompt (e : LlamaJiraEnhancer) (s : TicketSnapshot) (custom_instructions : Str) : Str :=
  e.policy_rules ++
  ("\n\n".data ++
  (issue_info s ++
  ("\n\n".data ++
  (custom_instructions ++
  ("\n\n".data ++ task_instruction)))))

set_option maxRecDepth 40000 in
example :
    countOcc "E".data (build_prompt defaultLlama ⟨"E".data, none, none, none, none, none, none, [], []⟩ []) ≠ 1 := by
  decide

/-! ### Generation call (`LlamaJiraEnhancer._call_model`)

The outbound HTTP POST is modelled by an oracle from requests to
either a raised exception (`Except.error` with the exception text) or
a response.  A response carries its HTTP status and the value of the
`response` field of its decoded JSON body (`none` when absent). -/

/-- The `options` object of the request body. -/
structure GenOptions where
  temperature : ℚ
  top_p : ℚ
  num_ctx : Nat
  deriving DecidableEq

/-- The JSON body sent to the generation endpoint. -/
structure GenPayload where
  model : Str
  prompt : Str
  stream : Bool
  options : GenOptions

/-- One outbound call: URL, JSON body and the `timeout=` argument. -/
structure HttpRequest where
  url : Str
  payload : GenPayload
  timeout : Nat

/-- The observable part of the HTTP response: status code and the
`response` field of the decoded JSON body. -/
structure HttpResponse where
  status : Nat
  response_field : Option Str

/-- The environment's behaviour for `requests.post`. -/
abbrev HttpPost := HttpRequest → Except Str HttpResponse

/-- The single request `_call_model` constructs: fixed URL suffix
`/api/generate`, `stream=False`, `temperature=0.1`, `top_p=0.9`,
`num_ctx=4096`, `timeout=60`. -/
def gen_request (e : LlamaJiraEnhancer) (prompt : Str) : HttpRequest :=
  { url := e.base_url ++ "/api/generate".data
    payload :=
      { model := e.model_name
        prompt := prompt
        stream := false
        options := { temperature := 0.1, top_p := 0.9, num_ctx := 4096 } }
    timeout := 60 }

/-- `LlamaJiraEnhancer._call_model`, instrumented with the list of
requests actually sent.  `response.raise_for_status()` raises exactly
for statuses in `[400, 600)`; on success the text is
`result.get("response", "")`. -/
def call_model (post : HttpPost) (e : LlamaJiraEnhancer) (prompt : Str) :
    Except Str Str × List HttpRequest :=
  let req := gen_request e prompt
  match post req with
  | .error err => (.error err, [req])
  | .ok resp =>
    if 400 ≤ resp.status ∧ resp.status < 600 then
      (.error ("HTTPError: ".data ++ (Nat.repr resp.status).data), [req])
    else
      (.ok (resp.response_field.getD []), [req])

/-- The dictionary returned by `LlamaJiraEnhancer.enhance_ticket`;
keys absent from the returned dictionary are `none`. -/
structure EnhancementResult where
  success : Bool
  enhanced_description : Option Str
  full_response : Option Str
  error : Option Str
  original_issue : Option TicketSnapshot
  timestamp : Nat

/-- `LlamaJiraEnhancer.enhance_ticket`: build the prompt, call the
model inside `try`, extract the description; any exception from the
call is captured as `success=False` with `error=str(e)`.  `now` is the
value of `time.time()`. -/
def enhance_ticket (post : HttpPost) (now : Nat) (e : LlamaJiraEnhancer)
    (issue : TicketSnapshot) (custom_instructions : Str) :
    EnhancementResult × List HttpRequest :=
  let prompt := build_prompt e issue custom_instructions
  match call_model post e prompt with
  | (.ok response, reqs) =>
    ({ success := true
       enhanced_description := some (extract_description_from_output response)
       full_response := some response
       error := none
       original_issue := some issue
       timestamp := now }, reqs)
  | (.error err, reqs) =>
    ({ success := false
       enhanced_description := none
       full_response := none
       error := some err
       original_issue := some issue
       timestamp := now }, reqs)

/-! ### `JiraIssueEnhancer`: preview and apply -/

/-- The `issue` argument of the `JiraIssueEnhancer` methods: either a
ticket key string or an already-fetched issue object. -/
inductive IssueRef where
  | key (k : Str)
  | obj (i : TicketSnapshot)

/-- The external tracker collaborator (`self.jira`): `issue` fetches a
ticket (raising on failure), `issue_update` writes a description
(raising on failure). -/
structure JiraEnv where
  jiraIssue : Str → Except Str TicketSnapshot
  issueUpdate : Str → Str → Except Str Unit

/-- `JiraIssueEnhancer.get_issue`: a bare `self.jira.issue(key)` call,
not wrapped in any exception handler. -/
def get_issue (env : JiraEnv) (ticket_key : Str) : Except Str TicketSnapshot :=
  env.jiraIssue ticket_key

/-- `JiraIssueEnhancer.enhance_issue_description`: resolve a string
key through `get_issue` (outside any `try`, so a lookup failure
propagates as `Except.error`), then delegate to
`LlamaJiraEnhancer.enhance_ticket` on the default enhancer. -/
def enhance_issue_description (env : JiraEnv) (post : HttpPost) (now : Nat)
    (issue : IssueRef) (custom_instructions : Str) :
    Except Str (EnhancementResult × List HttpRequest) :=
  match issue with
  | .key k =>
    match get_issue env k with
    | .error e => .error e
    | .ok i => .ok (enhance_ticket post now defaultLlama i custom_instructions)
  | .obj i => .ok (enhance_ticket post now defaultLlama i custom_instructions)

/-- The `try`-guarded `self.jira.issue_update` call of
`update_issue_description`, instrumented with the list of write
attempts `(issue_key, new_description)` made against the tracker. -/
def perform_issue_update (env : JiraEnv) (issue_key desc : Str) :
    (Bool × Str) × List (Str × Str) :=
  match env.issueUpdate issue_key desc with
  | .ok _ =>
    ((true, "✅ Successfully updated description for ".data ++ issue_key), [(issue_key, desc)])
  | .error e =>
    ((false, "❌ Failed to update ".data ++ issue_key ++ ": ".data ++ e), [(issue_key, desc)])

/-- `JiraIssueEnhancer.update_issue_description`: a string reference
is re-fetched first (a failure there propagates); the write itself is
`try`-guarded and reported as `(success, message)`. -/
def update_issue_description (env : JiraEnv) (issue : IssueRef) (enhanced_description : Str) :
    Except Str ((Bool × Str) × List (Str × Str)) :=
  match issue with
  | .key k =>
    match get_issue env k with
    | .error e => .error e
    | .ok _ => .ok (perform_issue_update env k enhanced_description)
  | .obj i => .ok (perform_issue_update env i.key enhanced_description)

/-- The key/object resolution prologue shared by
`update_issue_description` and `enhance_and_update_issue`: a string
ref keeps the given key and fetches the object; an object ref reads
`issue['key']`. -/
def resolveRef (env : JiraEnv) (issue : IssueRef) : Except Str (Str × TicketSnapshot) :=
  match issue with
  | .key k =>
    match get_issue env k with
    | .error e => .error e
    | .ok i => .ok (k, i)
  | .obj i => .ok (i.key, i)

/-- `JiraIssueEnhancer.enhance_and_update_issue`: resolve, run the
preview step, and only when it reports success write the enhanced
description back, returning the write's `(success, message)`.  The
second component records the tracker write attempts. -/
def enhance_and_update_issue (env : JiraEnv) (post : HttpPost) (now : Nat)
    (issue : IssueRef) (custom_instructions : Str) :
    Except Str ((Bool × Str) × List (Str × Str)) :=
  match resolveRef env issue with
  | .error e => .error e
  | .ok (issue_key, i) =>
    let er := (enhance_ticket post now defaultLlama i custom_instructions).1
    if er.success then
      update_issue_description env (.obj i) (er.enhanced_description.getD [])
    else
      .ok ((false, "❌ Enhancement failed for ".data ++ issue_key ++ ": ".data ++ er.error.getD []), [])

/-! ### Tenant registry and handlers (`jira_connect_app.py`)

`self.installed_tenants` is a dictionary keyed by whatever
`data.get('clientKey')` returned — possibly `None` — so the registry
is an association list keyed by `Option Str` with distinct keys.
`tenants.json` on disk is modelled by the `disk` field of the app
state; `save_tenants` copies the in-memory mapping to it. -/

/-- The value stored per tenant by `serve_installed`. -/
structure TenantRecord where
  shared_secret : Option Str
  base_url : Option Str
  installed_at : Nat
  deriving DecidableEq

/-- The `installed_tenants` dictionary. -/
abbrev Registry := List (Option Str × TenantRecord)

/-- Dictionary lookup `d[k]` / `d.get(k)`. -/
def regLookup (k : Option Str) : Registry → Option TenantRecord
  | [] => none
  | (k', v) :: t => if k' = k then some v else regLookup k t

/-- Dictionary membership `k in d`. -/
def regContains (k : Option Str) (r : Registry) : Bool :=
  (regLookup k r).isSome

/-- Dictionary assignment `d[k] = v`: replace an existing binding or
append a new one. -/
def regInsert (k : Option Str) (v : TenantRecord) : Registry → Registry
  | [] => [(k, v)]
  | (k', v') :: t => if k' = k then (k, v) :: t else (k', v') :: regInsert k v t

/-- Dictionary deletion `del d[k]` (keys are distinct, so removing the
first binding removes the binding). -/
def regErase (k : Option Str) : Registry → Registry
  | [] => []
  | (k', v') :: t => if k' = k then t else (k', v') :: regErase k t

/-- The process state the handlers touch: the in-memory
`installed_tenants` mapping and the contents of `tenants.json`. -/
structure AppState where
  installed_tenants : Registry
  disk : Registry

/-- `JiraConnectApp.save_tenants`: rewrite `tenants.json` with the
in-memory mapping. -/
def save_tenants (st : AppState) : AppState :=
  { st with disk := st.installed_tenants }

/-- The JSON body of the install callback; each field is whatever
`data.get(...)` returns, `none` when absent. -/
structure InstallBody where
  clientKey : Option Str
  sharedSecret : Option Str
  baseUrl : Option Str

/-- The handlers' HTTP result: `('', 204)` or a 400 JSON error. -/
inductive HandlerResponse where
  | noContent
  | badRequest (msg : Str)
  deriving DecidableEq

/-- `serve_installed` on a JSON-object body: store
`{'shared_secret': …, 'base_url': …, 'installed_at': time.time()}`
under `data.get('clientKey')` with no validation of any field, call
`save_tenants`, and return `('', 204)`.  `now` is `time.time()`. -/
def serve_installed (st : AppState) (body : InstallBody) (now : Nat) :
    AppState × HandlerResponse :=
  let rec0 : TenantRecord := ⟨body.sharedSecret, body.baseUrl, now⟩
  let st' := { st with installed_tenants := regInsert body.clientKey rec0 st.installed_tenants }
  (save_tenants st', .noContent)

/-- `serve_uninstalled` on a JSON-object body: delete the binding when
present (no-op otherwise) and return `('', 204)`.  The handler never
calls `save_tenants`, so the on-disk mapping is left as it was. -/
def serve_uninstalled (st : AppState) (clientKey : Option Str) :
    AppState × HandlerResponse :=
  if regContains clientKey st.installed_tenants then
    ({ st with installed_tenants := regErase clientKey st.installed_tenants }, .noContent)
  else
    (st, .noContent)

/-! ### The JWT gate (`JiraConnectApp.jwt_required`)

A token is modelled by its decoded claims (`iss`), the secret its
signature was produced with, and whether its `exp` claim has passed;
`jwt.decode(token, options={"verify_signature": False})` reads `iss`
without touching the signature, and
`jwt.decode(token, shared_secret, algorithms=['HS256'])` succeeds
exactly when the stored secret matches the signing secret (checked
before the expiry claim, as PyJWT does). -/

structure JwtToken where
  iss : Option Str
  signedWith : Str
  expired : Bool

/-- The `Authorization` header: absent, present without the `JWT `
scheme, or carrying a token. -/
inductive AuthHeader where
  | absent
  | notJwt (raw : Str)
  | jwt (t : JwtToken)

/-- Outcome of the decorator: run the wrapped handler with the
verified payload's issuer, or short-circuit with a 401 error body. -/
inductive AuthOutcome where
  | ok (iss : Option Str)
  | err (msg : Str) (code : Nat)
  deriving DecidableEq

/-- `JiraConnectApp.jwt_required`: reject non-`JWT ` headers; decode
the issuer without verification; reject issuers with no TenantRecord
before any signature check; then verify with the stored
`shared_secret`. -/
def jwt_required_check (tenants : Registry) (h : AuthHeader) : AuthOutcome :=
  match h with
  | .absent => .err "Missing or invalid JWT token".data 401
  | .notJwt _ => .err "Missing or invalid JWT token".data 401
  | .jwt t =>
    match regLookup t.iss tenants with
    | none => .err "App not installed for this tenant".data 401
    | some record =>
      if record.shared_secret = some t.signedWith then
        if t.expired then .err "Token expired".data 401
        else .ok t.iss
      else .err "Invalid token".data 401

/-! ### Concrete fixtures used by counterexamples and witnesses -/

/-- A small concrete ticket: populated title, priority, status and
labels; missing description, issue type, assignee and components. -/
def sampleTicket : TicketSnapshot :=
  ⟨"K-1".data, some "T".data, none, some "High".data, none, none, some "Open".data,
   ["a".data, "b".data], []⟩

/-- A tracker whose reads succeed (always returning `sampleTicket`)
and whose writes succeed. -/
def envStub : JiraEnv :=
  ⟨fun _ => .ok sampleTicket, fun _ _ => .ok ()⟩

/-- A tracker whose issue lookup raises. -/
def envLookupFails : JiraEnv :=
  ⟨fun _ => .error "ConnectionError: tracker unreachable".data, fun _ _ => .ok ()⟩

/-- A generation endpoint whose POST raises a network exception. -/
def postErr : HttpPost :=
  fun _ => .error "ConnectionError: generation endpoint unreachable".data

/-- A generation endpoint answering HTTP 500 with no usable body. -/
def post500 : HttpPost :=
  fun _ => .ok ⟨500, none⟩

/-- A generation endpoint answering HTTP 200 whose decoded body has a
`response` field. -/
def post200 : HttpPost :=
  fun _ => .ok ⟨200, some "ENHANCED DESCRIPTION:\nBetter".data⟩

/-- An app state in which tenant `acme` is installed and persisted. -/
def uninstallDemoState : AppState :=
  ⟨[(some "acme".data, ⟨some "sec".data, some "https://acme".data, 3⟩)],
   [(some "acme".data, ⟨some "sec".data, some "https://acme".data, 3⟩)]⟩

/-! ## Helper lemmas -/

theorem occurs_append_left {p a : Str} (b : Str) (h : Occurs p a) : Occurs p (a ++ b) := by
  obtain ⟨u, v, rfl⟩ := h
  exact ⟨u, v ++ b, by simp [List.append_assoc]⟩

theorem occurs_append_right {p b : Str} (a : Str) (h : Occurs p b) : Occurs p (a ++ b) := by
  obtain ⟨u, v, rfl⟩ := h
  exact ⟨a ++ u, v, by simp [List.append_assoc]⟩

theorem occurs_head (p b : Str) : Occurs p (p ++ b) :=
  ⟨[], b, rfl⟩

theorem occurs_self (p : Str) : Occurs p p :=
  ⟨[], [], by simp⟩

theorem occurs_trans {p q hay : Str} (h₁ : Occurs p q) (h₂ : Occurs q hay) : Occurs p hay := by
  obtain ⟨u, v, rfl⟩ := h₁
  obtain ⟨u', v', rfl⟩ := h₂
  exact ⟨u' ++ u, v ++ v', by simp [List.append_assoc]⟩

/-- While the marker has not been seen yet, lines that do not contain
it leave the loop state unchanged. -/
theorem extractLoop_no_marker (ls : List Str) (acc : List Str)
    (h : ∀ l ∈ ls, strContains (pyUpper l) MARKER = false) :
    extractLoop ls false acc = acc := by
  induction ls with
  | nil => rfl
  | cons l t ih =>
    have hl : strContains (pyUpper l) MARKER = false := h l (by simp)
    have ht : ∀ x ∈ t, strContains (pyUpper x) MARKER = false :=
      fun x hx => h x (by simp [hx])
    simp [extractLoop, hl, ih ht]

/-! ## Claims -/

/-- Claim C3 counterexample: after accumulation has begun, the line
`"ENHANCED DESCRIPTION: X"` satisfies the claimed termination
condition (entirely upper-case, contains a colon, trimmed length
below 50), so by the claim it would be discarded, accumulation would
terminate and the later line `"Y"` would never be scanned — the
result would be empty.  The code instead appends `"X"` (the marker
branch takes precedence) and continues, yielding `"X\nY"`. -/
theorem C3_counterexample :
    isStopHeader "ENHANCED DESCRIPTION: X".data = true ∧
    extract_description_from_output
      "ENHANCED DESCRIPTION:\nENHANCED DESCRIPTION: X\nY".data = "X\nY".data ∧
    extract_description_from_output
      "ENHANCED DESCRIPTION:\nENHANCED DESCRIPTION: X\nY".data ≠ [] := by
  refine ⟨by decide, by decide, by decide⟩

/-- Claim C3 (amended): while accumulation is enabled, every
subsequent line **whose upper-cased form does not contain the marker**
is appended verbatim unless its trimmed form is entirely upper-case,
the line contains a colon and the trimmed form has fewer than 50
characters; such a line is discarded, accumulation terminates, and no
later line is scanned (the result no longer depends on the remaining
lines).  Lines containing the marker are handled by the marker branch
instead.  Extracting from
`"ENHANCED DESCRIPTION:\nFoo\nNEXT SECTION:\nBar"` yields `"Foo"`. -/
theorem C3_header_terminates_accumulation :
    (∀ line rest acc, strContains (pyUpper line) MARKER = false →
      (isStopHeader line = true → extractLoop (line :: rest) true acc = acc) ∧
      (isStopHeader line = false →
        extractLoop (line :: rest) true acc = extractLoop rest true (acc ++ [line]))) ∧
    extract_description_from_output
      "ENHANCED DESCRIPTION:\nFoo\nNEXT SECTION:\nBar".data = "Foo".data := by
  constructor
  · intro line rest acc hm
    constructor
    · intro hs
      simp [extractLoop, hm, hs]
    · intro hs
      simp [extractLoop, hm, hs]
  · decide

/-- Claim C3 witness: the stop header `"NEXT SECTION:"` ends the scan
regardless of the lines behind it, and the spec's example extracts
`"Foo"`. -/
theorem C3_header_terminates_accumulation_witness :
    extractLoop ["NEXT SECTION:".data, "Bar".data] true ["Foo".data] = ["Foo".data] ∧
    extract_description_from_output
      "ENHANCED DESCRIPTION:\nFoo\nNEXT SECTION:\nBar".data = "Foo".data :=
  ⟨(C3_header_terminates_accumulation.1 "NEXT SECTION:".data ["Bar".data] ["Foo".data]
      (by decide)).1 (by decide),
   C3_header_terminates_accumulation.2⟩

/-- Claim C8: if no line of the input upper-cases to something
containing `ENHANCED DESCRIPTION:`, extraction returns the empty
string — a normal value of the total function, not an error. -/
theorem C8_no_marker_yields_empty (s : Str)
    (h : ∀ l ∈ pySplit '\n' s, strContains (pyUpper l) MARKER = false) :
    extract_description_from_output s = [] := by
  unfold extract_description_from_output
  rw [extractLoop_no_marker _ _ h]
  decide

/-- Claim C8 witness: a concrete marker-free input. -/
theorem C8_no_marker_yields_empty_witness :
    extract_description_from_output "hello\nworld".data = [] :=
  C8_no_marker_yields_empty "hello\nworld".data (by decide)

/-- Claim C9: the marker branch applies to every line, not only the
first match: while accumulating, a line whose upper-cased form again
contains the marker is never appended verbatim — only the trimmed
text after its first colon is appended, and only when non-empty — and
the scan continues (no termination), even when the line would satisfy
the section-header rule.  Concretely, a repeated marker line
`"ENHANCED DESCRIPTION: Again"` contributes `"Again"` and scanning
goes on. -/
theorem C9_marker_branch_every_line :
    (∀ line rest acc, strContains (pyUpper line) MARKER = true →
      extractLoop (line :: rest) true acc =
        extractLoop rest true (acc ++
          (match pySplitOnce ':' line with
           | _ :: after :: _ => if pyStrip after = [] then [] else [pyStrip after]
           | _ => []))) ∧
    extract_description_from_output
      "ENHANCED DESCRIPTION:\nENHANCED DESCRIPTION: Again\nTail".data = "Again\nTail".data := by
  constructor
  · intro line rest acc hm
    rcases hsp : pySplitOnce ':' line with _ | ⟨a, _ | ⟨b, t⟩⟩
    · simp [extractLoop, hm, hsp]
    · simp [extractLoop, hm, hsp]
    · by_cases hb : pyStrip b = []
      · simp [extractLoop, hm, hsp, hb]
      · simp [extractLoop, hm, hsp, hb]
  · decide

/-- Claim C9 witness: a lowercase repeat of the marker line (which
also satisfies no verbatim append) contributes exactly its trimmed
after-colon text. -/
theorem C9_marker_branch_every_line_witness :
    extractLoop ["enhanced description: X".data] true [] = ["X".data] := by
  have h := C9_marker_branch_every_line.1 "enhanced description: X".data [] [] (by decide)
  rw [h]
  decide

set_option maxRecDepth 40000 in
/-- Claim C6 counterexample: the rendered prompt need not contain the
ticket key exactly once — for the key `"E"` it contains it 20 times
(the policy document and fixed template share the letter), refuting
the "exactly once" universal. -/
theorem C6_counterexample :
    countOcc "E".data
      (build_prompt defaultLlama ⟨"E".data, none, none, none, none, none, none, [], []⟩ []) = 20 ∧
    countOcc "E".data
      (build_prompt defaultLlama ⟨"E".data, none, none, none, none, none, none, [], []⟩ []) ≠ 1 := by
  have h : countOcc "E".data
      (build_prompt defaultLlama ⟨"E".data, none, none, none, none, none, none, [], []⟩ []) = 20 := by
    decide
  exact ⟨h, by rw [h]; decide⟩

/-- Claim C6 (amended): for every TicketSnapshot the rendered prompt
contains the literal ticket key (on its `Key: ` line) and the title
line at least once — not necessarily exactly once, since the key or
title may also occur in the fixed policy/template text or in another
field — and every populated field renders its value while every
unpopulated field renders its documented placeholder ("Not set",
"Unassigned", "No title", "No description", "Unknown" for status,
"None" for empty label/component lists, labels and components joined
by ", "). -/
theorem C6_prompt_renders_fields (s : TicketSnapshot) (ci : Str) :
    Occurs s.key (build_prompt defaultLlama s ci) ∧
    Occurs (kv_line "Key: " s.key) (build_prompt defaultLlama s ci) ∧
    (∀ t, s.summary = some t →
      Occurs (kv_line "Title: " t) (build_prompt defaultLlama s ci)) ∧
    (s.summary = none →
      Occurs (kv_line "Title: " "No title".data) (build_prompt defaultLlama s ci)) ∧
    (∀ t, s.description = some t →
      Occurs (kv_line "Description: " t) (build_prompt defaultLlama s ci)) ∧
    (s.description = none →
      Occurs (kv_line "Description: " "No description".data) (build_prompt defaultLlama s ci)) ∧
    (∀ t, s.priority = some t →
      Occurs (kv_line "Priority: " t) (build_prompt defaultLlama s ci)) ∧
    (s.priority = none →
      Occurs (kv_line "Priority: " "Not set".data) (build_prompt defaultLlama s ci)) ∧
    (∀ t, s.issuetype = some t →
      Occurs (kv_line "Issue Type: " t) (build_prompt defaultLlama s ci)) ∧
    (s.issuetype = none →
      Occurs (kv_line "Issue Type: " "Not set".data) (build_prompt defaultLlama s ci)) ∧
    (∀ t, s.assignee = some t →
      Occurs (kv_line "Assignee: " t) (build_prompt defaultLlama s ci)) ∧
    (s.assignee = none →
      Occurs (kv_line "Assignee: " "Unassigned".data) (build_prompt defaultLlama s ci)) ∧
    (∀ t, s.status = some t →
      Occurs (kv_line "Status: " t) (build_prompt defaultLlama s ci)) ∧
    (s.status = none →
      Occurs (kv_line "Status: " "Unknown".data) (build_prompt defaultLlama s ci)) ∧
    (s.labels ≠ [] →
      Occurs (kv_line "Labels: " (joinCommaSep s.labels)) (build_prompt defaultLlama s ci)) ∧
    (s.labels = [] →
      Occurs (kv_line "Labels: " "None".data) (build_prompt defaultLlama s ci)) ∧
    (s.components ≠ [] →
      Occurs (kv_line "Components: " (joinCommaSep s.components)) (build_prompt defaultLlama s ci)) ∧
    (s.components = [] →
      Occurs (kv_line "Components: " "None".data) (build_prompt defaultLlama s ci)) := by
  have lift : ∀ p : Str, Occurs p (issue_info s) → Occurs p (build_prompt defaultLlama s ci) := by
    intro p h
    unfold build_prompt
    exact occurs_append_right _ (occurs_append_right _ (occurs_append_left _ h))
  have hL1 : Occurs (kv_line "Key: " s.key) (issue_info s) := by
    unfold issue_info
    exact occurs_append_right _ (occurs_head _ _)
  have hL2 : Occurs (kv_line "Title: " (s.summary.getD "No title".data)) (issue_info s) := by
    unfold issue_info
    exact occurs_append_right _ (occurs_append_right _ (occurs_head _ _))
  have hL3 : Occurs (kv_line "Description: " (s.description.getD "No description".data))
      (issue_info s) := by
    unfold issue_info
    exact occurs_append_right _ (occurs_append_right _ (occurs_append_right _ (occurs_head _ _)))
  have hL4 : Occurs (kv_line "Priority: " (s.priority.getD "Not set".data)) (issue_info s) := by
    unfold issue_info
    exact occurs_append_right _ (occurs_append_right _ (occurs_append_right _
      (occurs_append_right _ (occurs_head _ _))))
  have hL5 : Occurs (kv_line "Issue Type: " (s.issuetype.getD "Not set".data)) (issue_info s) := by
    unfold issue_info
    exact occurs_append_right _ (occurs_append_right _ (occurs_append_right _
      (occurs_append_right _ (occurs_append_right _ (occurs_head _ _)))))
  have hL6 : Occurs (kv_line "Assignee: " (s.assignee.getD "Unassigned".data)) (issue_info s) := by
    unfold issue_info
    exact occurs_append_right _ (occurs_append_right _ (occurs_append_right _
      (occurs_append_right _ (occurs_append_right _ (occurs_append_right _ (occurs_head _ _))))))
  have hL7 : Occurs (kv_line "Status: " (s.status.getD "Unknown".data)) (issue_info s) := by
    unfold issue_info
    exact occurs_append_right _ (occurs_append_right _ (occurs_append_right _
      (occurs_append_right _ (occurs_append_right _ (occurs_append_right _
        (occurs_append_right _ (occurs_head _ _)))))))
  have hL8 : Occurs (kv_line "Labels: "
      (if s.labels = [] then "None".data else joinCommaSep s.labels)) (issue_info s) := by
    unfold issue_info
    exact occurs_append_right _ (occurs_append_right _ (occurs_append_right _
      (occurs_append_right _ (occurs_append_right _ (occurs_append_right _
        (occurs_append_right _ (occurs_append_right _ (occurs_head _ _))))))))
  have hL9 : Occurs (kv_line "Components: "
      (if s.components = [] then "None".data else joinCommaSep s.components)) (issue_info s) := by
    unfold issue_info
    exact occurs_append_right _ (occurs_append_right _ (occurs_append_right _
      (occurs_append_right _ (occurs_append_right _ (occurs_append_right _
        (occurs_append_right _ (occurs_append_right _ (occurs_append_right _
          (occurs_self _)))))))))
  refine ⟨?_, ?_, ?_, ?_, ?_, ?_, ?_, ?_, ?_, ?_, ?_, ?_, ?_, ?_, ?_, ?_, ?_, ?_⟩
  · exact occurs_trans ⟨"Key: ".data, "\n".data, rfl⟩ (lift _ hL1)
  · exact lift _ hL1
  · intro t ht; exact lift _ (by simpa [ht] using hL2)
  · intro h0; exact lift _ (by simpa [h0] using hL2)
  · intro t ht; exact lift _ (by simpa [ht] using hL3)
  · intro h0; exact lift _ (by simpa [h0] using hL3)
  · intro t ht; exact lift _ (by simpa [ht] using hL4)
  · intro h0; exact lift _ (by simpa [h0] using hL4)
  · intro t ht; exact lift _ (by simpa [ht] using hL5)
  · intro h0; exact lift _ (by simpa [h0] using hL5)
  · intro t ht; exact lift _ (by simpa [ht] using hL6)
  · intro h0; exact lift _ (by simpa [h0] using hL6)
  · intro t ht; exact lift _ (by simpa [ht] using hL7)
  · intro h0; exact lift _ (by simpa [h0] using hL7)
  · intro hne; exact lift _ (by simpa [hne] using hL8)
  · intro h0; exact lift _ (by simpa [h0] using hL8)
  · intro hne; exact lift _ (by simpa [hne] using hL9)
  · intro h0; exact lift _ (by simpa [h0] using hL9)

/-- Claim C6 witness: the amended rendering facts at a concrete
snapshot with a mix of populated and missing fields. -/
theorem C6_prompt_renders_fields_witness :
    Occurs "K-1".data (build_prompt defaultLlama sampleTicket "extra".data) ∧
    Occurs (kv_line "Title: " "T".data) (build_prompt defaultLlama sampleTicket "extra".data) ∧
    Occurs (kv_line "Description: " "No description".data)
      (build_prompt defaultLlama sampleTicket "extra".data) ∧
    Occurs (kv_line "Priority: " "High".data)
      (build_prompt defaultLlama sampleTicket "extra".data) ∧
    Occurs (kv_line "Labels: " (joinCommaSep ["a".data, "b".data]))
      (build_prompt defaultLlama sampleTicket "extra".data) ∧
    Occurs (kv_line "Components: " "None".data)
      (build_prompt defaultLlama sampleTicket "extra".data) := by
  have h := C6_prompt_renders_fields sampleTicket "extra".data
  refine ⟨h.1, ?_, ?_, ?_, ?_, ?_⟩
  · exact h.2.2.1 "T".data rfl
  · exact h.2.2.2.2.2.1 rfl
  · exact h.2.2.2.2.2.2.1 "High".data rfl
  · exact h.2.2.2.2.2.2.2.2.2.2.2.2.2.2.1 (by decide)
  · exact h.2.2.2.2.2.2.2.2.2.2.2.2.2.2.2.2.2 rfl

/-- Claim C1 counterexample: when the external tracker lookup raises
while resolving a ticket key, `enhance_issue_description` propagates
the exception to its caller (the `get_issue` call sits outside every
`try` block) instead of returning a `success=False` result. -/
theorem C1_counterexample :
    enhance_issue_description envLookupFails postErr 0 (.key "DIGI-894".data) [] =
      .error "ConnectionError: tracker unreachable".data := rfl

/-- Claim C1 (amended): the preview operation never raises when given
an issue snapshot, or a ticket key whose tracker lookup succeeds; a
failure of the generation call is captured into the returned result
as `success=false` with the exception's message as the error (and a
successful call yields `success=true` with the extracted
description).  A failure of the tracker lookup itself, however,
propagates to the caller. -/
theorem C1_preview_captures_generation_failures (env : JiraEnv) (post : HttpPost)
    (now : Nat) (i : TicketSnapshot) (ci : Str) :
    enhance_issue_description env post now (.obj i) ci =
      .ok (enhance_ticket post now defaultLlama i ci) ∧
    (∀ k i', env.jiraIssue k = .ok i' →
      enhance_issue_description env post now (.key k) ci =
        .ok (enhance_ticket post now defaultLlama i' ci)) ∧
    (∀ err, (call_model post defaultLlama (build_prompt defaultLlama i ci)).1 = .error err →
      (enhance_ticket post now defaultLlama i ci).1.success = false ∧
      (enhance_ticket post now defaultLlama i ci).1.error = some err) ∧
    (∀ r, (call_model post defaultLlama (build_prompt defaultLlama i ci)).1 = .ok r →
      (enhance_ticket post now defaultLlama i ci).1.success = true ∧
      (enhance_ticket post now defaultLlama i ci).1.enhanced_description =
        some (extract_description_from_output r)) := by
  refine ⟨rfl, ?_, ?_, ?_⟩
  · intro k i' h
    simp [enhance_issue_description, get_issue, h]
  · intro err h
    cases hcm : call_model post defaultLlama (build_prompt defaultLlama i ci) with
    | mk res reqs =>
      rw [hcm] at h
      simp only at h
      subst h
      simp [enhance_ticket, hcm]
  · intro r h
    cases hcm : call_model post defaultLlama (build_prompt defaultLlama i ci) with
    | mk res reqs =>
      rw [hcm] at h
      simp only at h
      subst h
      simp [enhance_ticket, hcm]

/-- Claim C1 witness: with a reachable tracker and a generation
endpoint that raises, preview returns (never raises) a captured
failure carrying the exception's message. -/
theorem C1_preview_captures_generation_failures_witness :
    enhance_issue_description envStub postErr 0 (.obj sampleTicket) [] =
      .ok (enhance_ticket postErr 0 defaultLlama sampleTicket []) ∧
    (enhance_ticket postErr 0 defaultLlama sampleTicket []).1.success = false ∧
    (enhance_ticket postErr 0 defaultLlama sampleTicket []).1.error =
      some "ConnectionError: generation endpoint unreachable".data := by
  have h := C1_preview_captures_generation_failures envStub postErr 0 sampleTicket []
  have h3 := h.2.2.1 "ConnectionError: generation endpoint unreachable".data rfl
  exact ⟨h.1, h3.1, h3.2⟩

/-- Claim C5: apply first runs the preview step; when the preview
reports `success=false`, apply returns failure carrying the
underlying error message and performs no tracker write; when the
preview succeeds, the enhanced description is written back once, and
apply reports the success or failure of that write (with the source's
messages). -/
theorem C5_apply_gates_write (env : JiraEnv) (post : HttpPost) (now : Nat)
    (ref : IssueRef) (ci issue_key : Str) (i : TicketSnapshot)
    (hres : resolveRef env ref = .ok (issue_key, i)) :
    ((enhance_ticket post now defaultLlama i ci).1.success = false →
      enhance_and_update_issue env post now ref ci =
        .ok ((false, "❌ Enhancement failed for ".data ++ issue_key ++ ": ".data ++
          (enhance_ticket post now defaultLlama i ci).1.error.getD []), [])) ∧
    ((enhance_ticket post now defaultLlama i ci).1.success = true →
      enhance_and_update_issue env post now ref ci =
        .ok (perform_issue_update env i.key
          ((enhance_ticket post now defaultLlama i ci).1.enhanced_description.getD []))) ∧
    (∀ d, (perform_issue_update env i.key d).2 = [(i.key, d)]) ∧
    (∀ d u, env.issueUpdate i.key d = .ok u →
      (perform_issue_update env i.key d).1 =
        (true, "✅ Successfully updated description for ".data ++ i.key)) ∧
    (∀ d err, env.issueUpdate i.key d = .error err →
      (perform_issue_update env i.key d).1 =
        (false, "❌ Failed to update ".data ++ i.key ++ ": ".data ++ err)) := by
  refine ⟨?_, ?_, ?_, ?_, ?_⟩
  · intro hs
    simp [enhance_and_update_issue, hres, hs]
  · intro hs
    simp [enhance_and_update_issue, hres, hs, update_issue_description]
  · intro d
    unfold perform_issue_update
    cases env.issueUpdate i.key d <;> simp
  · intro d u h
    simp [perform_issue_update, h]
  · intro d err h
    simp [perform_issue_update, h]

/-- Claim C5 witness: with a generation endpoint that fails, apply on
a concrete snapshot returns the enhancement failure and records no
tracker write. -/
theorem C5_apply_gates_write_witness :
    enhance_and_update_issue envStub postErr 0 (.obj sampleTicket) [] =
      .ok ((false, "❌ Enhancement failed for ".data ++ "K-1".data ++ ": ".data ++
        (enhance_ticket postErr 0 defaultLlama sampleTicket []).1.error.getD []), []) :=
  (C5_apply_gates_write envStub postErr 0 (.obj sampleTicket) [] "K-1".data sampleTicket
    rfl).1 rfl

/-- Claim C7: the generation call sends exactly one request, whose
body fixes `stream=false`, `temperature=0.1`, `top_p=0.9`,
`num_ctx=4096`, with `timeout=60`; an HTTP status in `[400, 600)`
makes the call fail, which surfaces as an unsuccessful
EnhancementResult; on success the text is the `response` field of the
decoded body, an absent field yielding the empty string rather than
an error. -/
theorem C7_generation_call (post : HttpPost) (e : LlamaJiraEnhancer) (p0 : Str) :
    (call_model post e p0).2 = [gen_request e p0] ∧
    (gen_request e p0).payload.stream = false ∧
    (gen_request e p0).payload.options = ⟨0.1, 0.9, 4096⟩ ∧
    (gen_request e p0).timeout = 60 ∧
    (∀ resp, post (gen_request e p0) = .ok resp →
      400 ≤ resp.status → resp.status < 600 →
      (call_model post e p0).1 = .error ("HTTPError: ".data ++ (Nat.repr resp.status).data)) ∧
    (∀ resp, post (gen_request e p0) = .ok resp →
      ¬(400 ≤ resp.status ∧ resp.status < 600) →
      (call_model post e p0).1 = .ok (resp.response_field.getD [])) ∧
    (∀ now i ci resp, post (gen_request e (build_prompt e i ci)) = .ok resp →
      400 ≤ resp.status → resp.status < 600 →
      (enhance_ticket post now e i ci).1.success = false) := by
  refine ⟨?_, rfl, rfl, rfl, ?_, ?_, ?_⟩
  · cases hp : post (gen_request e p0) with
    | error err => simp [call_model, hp]
    | ok resp =>
      by_cases hs : 400 ≤ resp.status ∧ resp.status < 600 <;>
        simp [call_model, hp, hs]
  · intro resp hp h1 h2
    simp [call_model, hp, h1, h2]
  · intro resp hp hs
    simp [call_model, hp, hs]
  · intro now i ci resp hp h1 h2
    have hcm : call_model post e (build_prompt e i ci) =
        (.error ("HTTPError: ".data ++ (Nat.repr resp.status).data),
         [gen_request e (build_prompt e i ci)]) := by
      simp [call_model, hp, h1, h2]
    simp [enhance_ticket, hcm]

/-- Claim C7 witness: a 500 response produces a failed call and an
unsuccessful EnhancementResult; the single request sent is the fixed
one. -/
theorem C7_generation_call_witness :
    (call_model post500 defaultLlama "p".data).2 = [gen_request defaultLlama "p".data] ∧
    (call_model post500 defaultLlama "p".data).1 =
      .error ("HTTPError: ".data ++ (Nat.repr 500).data) ∧
    (enhance_ticket post500 0 defaultLlama sampleTicket []).1.success = false := by
  have h := C7_generation_call post500 defaultLlama "p".data
  refine ⟨h.1, ?_, ?_⟩
  · exact h.2.2.2.2.1 ⟨500, none⟩ rfl (by decide) (by decide)
  · exact (C7_generation_call post500 defaultLlama
      (build_prompt defaultLlama sampleTicket [])).2.2.2.2.2.2 0 sampleTicket [] ⟨500, none⟩
      rfl (by decide) (by decide)

/-- Lookup after inserting at the same key. -/
theorem regLookup_regInsert_same (k : Option Str) (v : TenantRecord) (r : Registry) :
    regLookup k (regInsert k v r) = some v := by
  induction r with
  | nil => simp [regInsert, regLookup]
  | cons kv t ih =>
    obtain ⟨k', v'⟩ := kv
    by_cases h : k' = k
    · simp [regInsert, regLookup, h]
    · simp [regInsert, regLookup, h, ih]

/-- Lookup after inserting at a different key. -/
theorem regLookup_regInsert_other (k k' : Option Str) (v : TenantRecord) (r : Registry)
    (h : k ≠ k') :
    regLookup k (regInsert k' v r) = regLookup k r := by
  have h' : ¬(k' = k) := fun he => h he.symm
  induction r with
  | nil => simp [regInsert, regLookup, h']
  | cons kv t ih =>
    obtain ⟨k0, v0⟩ := kv
    by_cases h0 : k0 = k'
    · subst h0
      simp [regInsert, regLookup, h']
    · simp [regInsert, regLookup, h0, ih]

/-- Claim C2 (code bug): `serve_uninstalled` removes the tenant from
the in-memory registry and acknowledges with `('', 204)`, but never
calls `save_tenants`, so the updated mapping is **not** persisted:
after uninstalling `acme` from a state where `acme` is installed and
persisted, the in-memory mapping no longer contains `acme` while the
durable mapping still does. -/
theorem C2_uninstall_skips_persistence :
    (serve_uninstalled uninstallDemoState (some "acme".data)).2 = .noContent ∧
    regLookup (some "acme".data)
      (serve_uninstalled uninstallDemoState (some "acme".data)).1.installed_tenants = none ∧
    (serve_uninstalled uninstallDemoState (some "acme".data)).1.disk = uninstallDemoState.disk ∧
    regLookup (some "acme".data)
      (serve_uninstalled uninstallDemoState (some "acme".data)).1.disk =
      some ⟨some "sec".data, some "https://acme".data, 3⟩ := by
  refine ⟨rfl, by decide, rfl, by decide⟩

/-- Claim C4: a token whose claimed issuer has no TenantRecord is
rejected as unknown-tenant, regardless of the token's signing secret
or expiry — the issuer is read without signature verification, the
registry lookup happens first, and the stored secret is consulted
only when the lookup succeeds. -/
theorem C4_unknown_tenant_always_rejected (tenants : Registry) (t : JwtToken)
    (h : regLookup t.iss tenants = none) :
    jwt_required_check tenants (.jwt t) = .err "App not installed for this tenant".data 401 := by
  simp [jwt_required_check, h]

/-- Claim C4 witness: a token signed with an installed tenant's real
secret but issued under an unregistered issuer is still rejected as
unknown-tenant. -/
theorem C4_unknown_tenant_always_rejected_witness :
    jwt_required_check [(some "known".data, ⟨some "s1".data, some "https://known".data, 5⟩)]
      (.jwt ⟨some "other".data, "s1".data, false⟩) =
      .err "App not installed for this tenant".data 401 :=
  C4_unknown_tenant_always_rejected _ _ (by decide)

/-- Claim C10: the install callback validates nothing: for every
JSON-object body — including one missing `clientKey`, `sharedSecret`
or `baseUrl` — it creates or replaces the TenantRecord keyed by
whatever `clientKey` value was supplied (a null key when absent),
stores the possibly-null secret and base URL with the install time,
leaves other tenants untouched, persists the registry, and returns
the empty `('', 204)` acknowledgement. -/
theorem C10_install_accepts_anything (st : AppState) (body : InstallBody) (now : Nat) :
    (serve_installed st body now).2 = .noContent ∧
    regLookup body.clientKey (serve_installed st body now).1.installed_tenants =
      some ⟨body.sharedSecret, body.baseUrl, now⟩ ∧
    (∀ k, k ≠ body.clientKey →
      regLookup k (serve_installed st body now).1.installed_tenants =
        regLookup k st.installed_tenants) ∧
    (serve_installed st body now).1.disk =
      (serve_installed st body now).1.installed_tenants := by
  refine ⟨rfl, ?_, ?_, rfl⟩
  · simp [serve_installed, save_tenants, regLookup_regInsert_same]
  · intro k hk
    simp [serve_installed, save_tenants, regLookup_regInsert_other _ _ _ _ hk]

/-- Claim C10 witness: installing with an entirely empty JSON body
stores a record under the null key and persists it. -/
theorem C10_install_accepts_anything_witness :
    (serve_installed ⟨[], []⟩ ⟨none, none, none⟩ 7).2 = .noContent ∧
    regLookup none (serve_installed ⟨[], []⟩ ⟨none, none, none⟩ 7).1.installed_tenants =
      some ⟨none, none, 7⟩ ∧
    regLookup (some "z".data)
      (serve_installed ⟨[], []⟩ ⟨none, none, none⟩ 7).1.installed_tenants = none ∧
    (serve_installed ⟨[], []⟩ ⟨none, none, none⟩ 7).1.disk =
      (serve_installed ⟨[], []⟩ ⟨none, none, none⟩ 7).1.installed_tenants := by
  have h := C10_install_accepts_anything ⟨[], []⟩ ⟨none, none, none⟩ 7
  exact ⟨h.1, h.2.1, (h.2.2.1 (some "z".data) (by decide)).trans rfl, h.2.2.2⟩
